import Mathlib

/-!
Verification development for the Google-Timer repository: a shallow
embedding in Lean 4 of the run-time sequencing engine (RunMode component),
the speech-service wrappers (geminiService.ts) and the audio decoding
utility (audioUtils), together with theorems settling the specification
claims about them.

Machine integers of the source are modelled as Nat/Int; fallible
JavaScript promises are modelled as Except; the per-attempt outcome of a
network call is supplied by an oracle function from attempt number to
result, so that every definition is executable.
-/

namespace GoogleTimer

/-! ## Data model (types.ts) -/

/-- One named, timed unit of work (interface TimerStep in types.ts). -/
structure TimerStep where
  id : String
  name : String
  durationSeconds : Nat
deriving DecidableEq, Repr

/-- The four alarm sounds (type AlarmType in types.ts). -/
inductive AlarmType
  | bell | digital | chime | gong
deriving DecidableEq, Repr

/-- Sequence settings (interface ChainSettings in types.ts). The alarm
volume is a rational standing in for the JavaScript number in [0,1]. -/
structure ChainSettings where
  alarmSound : AlarmType
  alarmVolume : Rat
  bufferSeconds : Nat
deriving DecidableEq, Repr

/-- Application status (enum AppStatus in types.ts). -/
inductive AppStatus
  | SETUP | RUNNING | FINISHED
deriving DecidableEq, Repr

/-- Run phase (enum TimerPhase in types.ts). -/
inductive TimerPhase
  | PREPARING_AUDIO | ANNOUNCING | COUNTDOWN | BUFFER
  | COMPLETION_ANNOUNCEMENT | COMPLETED
deriving DecidableEq, Repr

/-! ## App.tsx: start guard -/

/-- handleStart in App.tsx: `if (timers.length > 0) setStatus(RUNNING)`.
With an empty list the status setter is never called, so the status is
returned unchanged. -/
def handleStart (timers : List TimerStep) (status : AppStatus) : AppStatus :=
  if timers.length > 0 then AppStatus.RUNNING else status

/-! ## geminiService.ts: duration-to-phrase formatting

The body of generateTimerAnnouncement first renders durationSeconds as an
English phrase (lines 34-41); that computation is pure and is embedded
here as `timeString`. -/

/-- The duration phrase computed at the top of generateTimerAnnouncement:
minutes = floor(d/60), seconds = d mod 60; emit the minutes part with a
plural s unless minutes equals 1, then " and " when both parts are
present, then the seconds part with a plural s unless seconds equals 1;
an empty result (d = 0) becomes "0 seconds". -/
def timeString (durationSeconds : Nat) : String :=
  let minutes := durationSeconds / 60
  let seconds := durationSeconds % 60
  let t1 : String :=
    if minutes > 0 then
      "" ++ toString minutes ++ " minute" ++ (if minutes ≠ 1 then "s" else "")
    else ""
  let t2 : String := if minutes > 0 ∧ seconds > 0 then t1 ++ " and " else t1
  let t3 : String :=
    if seconds > 0 then
      t2 ++ toString seconds ++ " second" ++ (if seconds ≠ 1 then "s" else "")
    else t2
  if t3 = "" then "0 seconds" else t3

/-- Spec-side helper: a count with a pluralization-correct unit name. -/
def pluralPhrase (k : Nat) (unit : String) : String :=
  toString k ++ " " ++ unit ++ (if k = 1 then "" else "s")

/-- Modelled from the wording of the spec, for comparison with
`timeString`: zero renders as "0 seconds"; otherwise the minutes part,
the seconds part, or both joined by " and ", each pluralization-correct. -/
def phraseSpec (durationSeconds : Nat) : String :=
  let m := durationSeconds / 60
  let s := durationSeconds % 60
  if durationSeconds = 0 then "0 seconds"
  else if m = 0 then pluralPhrase s "second"
  else if s = 0 then pluralPhrase m "minute"
  else pluralPhrase m "minute" ++ " and " ++ pluralPhrase s "second"

/-! ## geminiService.ts: retry helper and the three service calls

One underlying model call (`ai.models.generateContent` raced against its
timeout) is supplied by an oracle from attempt number to `Except String`:
a thrown error (timeout, network) or a response. For the two synthesis
calls the response is collapsed to its optional audio payload, the value
of the optional chain `response.candidates?.[0]?.content?.parts?.[0]?.inlineData?.data`;
for transcription it is collapsed to the optional `response.text`. -/

/-- retry (geminiService.ts lines 17-29): run fn; on a thrown error,
rethrow when no retries remain, otherwise wait delay milliseconds and
recurse with one retry fewer and twice the delay. Each attempt is passed
its attempt number so the oracle can vary per attempt; the second
component of the result counts the calls made. -/
def retry (fn : Nat → Except String α) (retries : Nat) (delay : Nat) (attempt : Nat) :
    Except String α × Nat :=
  match fn attempt with
  | .ok a => (.ok a, 1)
  | .error e =>
    match retries with
    | 0 => (.error e, 1)
    | r + 1 =>
      let rest := retry fn r (delay * 2) (attempt + 1)
      (rest.1, rest.2 + 1)

/-- The per-attempt body of generateTimerAnnouncement (lines 45-68):
await the model call, extract the audio payload, and throw when the
payload is missing. -/
def generateAnnouncementApiCall (call : Nat → Except String (Option String))
    (attempt : Nat) : Except String String :=
  match call attempt with
  | .error e => .error e
  | .ok none => .error "No audio data received from Gemini"
  | .ok (some base64Audio) => .ok base64Audio

/-- generateTimerAnnouncement (lines 33-76) after the prompt is built:
retry the api call with the default 3 retries and 1000 ms initial delay,
rethrowing the final error. The pair carries the api call count. -/
def generateTimerAnnouncement (call : Nat → Except String (Option String)) :
    Except String String × Nat :=
  retry (generateAnnouncementApiCall call) 3 1000 0

/-- The per-attempt body of generateCompletionAnnouncement (lines 81-100). -/
def generateCompletionApiCall (call : Nat → Except String (Option String))
    (attempt : Nat) : Except String String :=
  match call attempt with
  | .error e => .error e
  | .ok none => .error "No audio data"
  | .ok (some base64Audio) => .ok base64Audio

/-- generateCompletionAnnouncement (lines 78-108): same retry policy as
the step announcement. -/
def generateCompletionAnnouncement (call : Nat → Except String (Option String)) :
    Except String String × Nat :=
  retry (generateCompletionApiCall call) 3 1000 0

/-- The trim of the JavaScript string prototype: drop leading and
trailing whitespace. Defined structurally over the character data so that
it evaluates by kernel reduction. -/
def jsTrim (s : String) : String :=
  String.mk (((s.data.dropWhile Char.isWhitespace).reverse.dropWhile
    Char.isWhitespace).reverse)

/-- The per-attempt body of transcribeAudio (lines 113-131): await the
model call under its 15 second timeout, then return
`response.text?.trim() || ""` — the trimmed text when present and
non-empty after trimming, otherwise the empty string. This attempt body
never throws on a successful model call. -/
def transcribeApiCall (call : Nat → Except String (Option String))
    (attempt : Nat) : Except String String :=
  match call attempt with
  | .error e => .error e
  | .ok t =>
    let trimmed : Option String := t.map jsTrim
    .ok (match trimmed with
         | none => ""
         | some s => if s = "" then "" else s)

/-- transcribeAudio (lines 110-139): retry the api call with 2 retries
and 500 ms initial delay, rethrowing the final error. -/
def transcribeAudio (call : Nat → Except String (Option String)) :
    Except String String × Nat :=
  retry (transcribeApiCall call) 2 500 0

/-! ## audioUtils: decodeGeminiAudio

The decode path of the Audio Output Service: the base64 payload is
already decoded to its byte sequence (each byte below 256); floats are
modelled as rationals, which is exact because every 16 bit sample divided
by 32768 is a dyadic rational representable in a 32 bit float. -/


def toInt16 (lo hi : Nat) : Int :=
  let u := lo + 256 * hi
  if u < 32768 then (u : Int) else (u : Int) - 65536

def bytePairs : List Nat → List (Nat × Nat)
  | lo :: hi :: rest => (lo, hi) :: bytePairs rest
  | _ => []

def decodeGeminiAudio (bytes : List Nat) : List Rat :=
  let len := bytes.length
  let safeLen := if len % 2 = 0 then len else len - 1
  let kept := bytes.take safeLen
  (bytePairs kept).map (fun p => ((toInt16 p.1 p.2 : Int) : Rat) / 32768)

/-! ## RunMode: the sequencing engine

The asynchronous controller of src RunMode is embedded as explicit state
passing. The scheduling model of the source is single-threaded
cooperative concurrency, so each synchronous stretch of code between two
awaits is a pure state transformer; a whole uninterrupted operation is
the composition of its stretches, with the outcome of every await
supplied by an oracle. The opId checks inside an operation compare the
captured generation with the live one; in an uninterrupted run the live
generation never moves, so those checks pass and the modelled composition
is exactly what the code executes when no user action intervenes. -/

/-- The mutable state of the RunMode component: the React state cells
(currentIndex, phase, remainingSeconds, isPaused, errorMessage), the
lifecycle refs (opIdRef, whether audioStopRef and intervalRef currently
hold a handle), and the announcement cache. B stands for the decoded
AudioBuffer type. -/
structure RunState (B : Type) where
  currentIndex : Nat
  phase : TimerPhase
  remainingSeconds : Nat
  isPaused : Bool
  errorMessage : Option String
  opId : Nat
  audioStopSet : Bool
  intervalSet : Bool
  cache : List (Nat × B)
deriving DecidableEq, Repr

/-- Lookup in the announcement cache (audioCache.current.get). -/
def cacheGet (cache : List (Nat × B)) (k : Nat) : Option B :=
  match cache with
  | [] => none
  | (k2, v) :: rest => if k = k2 then some v else cacheGet rest k

/-- Store in the announcement cache (audioCache.current.set). -/
def cacheSet (cache : List (Nat × B)) (k : Nat) (v : B) : List (Nat × B) :=
  (k, v) :: cache

/-- stopEverything (RunMode lines 35-44): call and clear the audio stop
handle, clear the tick interval. -/
def stopEverything (s : RunState B) : RunState B :=
  { s with audioStopSet := false, intervalSet := false }

/-- cleanup (RunMode lines 46-49): stopEverything, then increment opIdRef
to invalidate any pending async operation. -/
def cleanup (s : RunState B) : RunState B :=
  let s1 := stopEverything s
  { s1 with opId := s1.opId + 1 }

/-- The auto-dismiss delay of the transient error notice, from the
useEffect at RunMode lines 56-61: setTimeout(() => setErrorMessage(null), 5000). -/
def errorAutoDismissMs : Nat := 5000

/-- Calls to the external audio services observable in one operation. -/
inductive AudioEvent
  | synthStep (index : Nat)
  | synthCompletion
  | decodeCall
  | playBuffer
  | preloadStart (index : Nat)
deriving DecidableEq, Repr

/-- The environment outcomes one preparation consumes: the result of the
relevant speech synthesis call (after its internal retries) and of the
audio decode. -/
structure FetchOracle (B : Type) where
  synthStep : Except String String
  synthCompletion : Except String String
  decode : String → Except String B

/-- preloadNextAudio (RunMode lines 65-88): no-op on a cache hit; for the
sentinel index timers.length fetch the completion clip, for an index
below the length fetch the step announcement, otherwise return; decode
and store on success; swallow every failure. The event list records the
synthesis and decode calls made. -/
def preloadNextAudio (timers : List TimerStep) (oracle : FetchOracle B)
    (cache : List (Nat × B)) (targetIndex : Nat) :
    List (Nat × B) × List AudioEvent :=
  if (cacheGet cache targetIndex).isSome then (cache, [])
  else if targetIndex = timers.length then
    match oracle.synthCompletion with
    | .ok base64 =>
      match oracle.decode base64 with
      | .ok buffer => (cacheSet cache targetIndex buffer,
          [.synthCompletion, .decodeCall])
      | .error _ => (cache, [.synthCompletion, .decodeCall])
    | .error _ => (cache, [.synthCompletion])
  else if targetIndex < timers.length then
    match oracle.synthStep with
    | .ok base64 =>
      match oracle.decode base64 with
      | .ok buffer => (cacheSet cache targetIndex buffer,
          [.synthStep targetIndex, .decodeCall])
      | .error _ => (cache, [.synthStep targetIndex, .decodeCall])
    | .error _ => (cache, [.synthStep targetIndex])
  else (cache, [])

/-- The synchronous entry of runSequence (RunMode lines 92-100 and
126-128), up to the first await: capture a fresh generation by
incrementing opIdRef, stopEverything, clear the error notice, clear the
pause flag; then either enter COMPLETION_ANNOUNCEMENT (index past the
end) or set the current index and enter PREPARING_AUDIO. -/
def runSequenceEntry (timersLen : Nat) (s : RunState B) (index : Nat) :
    RunState B :=
  let s1 : RunState B :=
    { s with opId := s.opId + 1, audioStopSet := false, intervalSet := false,
             errorMessage := none, isPaused := false }
  if timersLen ≤ index then { s1 with phase := TimerPhase.COMPLETION_ANNOUNCEMENT }
  else { s1 with currentIndex := index, phase := TimerPhase.PREPARING_AUDIO }

/-- handleSkip (RunMode lines 235-237): runSequence(currentIndex + 1). -/
def handleSkip (timersLen : Nat) (s : RunState B) : RunState B :=
  runSequenceEntry timersLen s (s.currentIndex + 1)

/-- togglePause (RunMode lines 239-258): ignored outside COUNTDOWN and
BUFFER. Resume clears the pause flag and calls
startTimer(remainingSeconds, opIdRef.current, ...), which resets the
remaining seconds to the same retained value, replaces the interval and
leaves opIdRef untouched. Pause sets the pause flag and clears the
interval, retaining remainingSeconds. -/
def togglePause (s : RunState B) : RunState B :=
  if s.phase ≠ TimerPhase.COUNTDOWN ∧ s.phase ≠ TimerPhase.BUFFER then s
  else if s.isPaused then
    { s with isPaused := false, intervalSet := true }
  else
    { s with isPaused := true, intervalSet := false }

/-- The part of handleStepComplete after the alarm resolves (RunMode
lines 196-223), in a run whose generation is still live: when a further
step follows and bufferSeconds is positive, enter BUFFER, show the
upcoming index and start the buffer tick; otherwise re-enter runSequence
for the next index (modelled up to its synchronous entry). -/
def handleStepCompleteAfterAlarm (totalSteps : Nat) (settings : ChainSettings)
    (s : RunState B) (completedIndex : Nat) : RunState B :=
  let nextIndex := completedIndex + 1
  if nextIndex < totalSteps ∧ settings.bufferSeconds > 0 then
    { s with phase := TimerPhase.BUFFER, currentIndex := nextIndex,
             remainingSeconds := settings.bufferSeconds, intervalSet := true }
  else runSequenceEntry totalSteps s nextIndex

/-- The uninterrupted execution of runSequence(index) for an index inside
the step list (RunMode lines 92-172), from the synchronous entry to the
moment the countdown tick source is running: cache hit plays the cached
announcement; a cache miss fetches and decodes, storing on success; any
synthesis or decode failure is caught, sets the transient error notice
and starts the countdown silently. In every outcome the countdown starts
for the full durationSeconds of the step and the preload of index + 1 is
fired. The event list records the audio work performed. -/
def runSequenceStep (timers : List TimerStep) (oracle : FetchOracle B)
    (s : RunState B) (index : Nat) : RunState B × List AudioEvent :=
  let s1 := runSequenceEntry timers.length s index
  if h : index < timers.length then
    let step := timers.get ⟨index, h⟩
    match cacheGet s1.cache index with
    | some _buffer =>
      ({ s1 with phase := TimerPhase.COUNTDOWN,
                 remainingSeconds := step.durationSeconds,
                 intervalSet := true, audioStopSet := false },
       [AudioEvent.playBuffer, AudioEvent.preloadStart (index + 1)])
    | none =>
      match oracle.synthStep with
      | .ok base64 =>
        match oracle.decode base64 with
        | .ok buffer =>
          ({ s1 with cache := cacheSet s1.cache index buffer,
                     phase := TimerPhase.COUNTDOWN,
                     remainingSeconds := step.durationSeconds,
                     intervalSet := true, audioStopSet := false },
           [AudioEvent.synthStep index, AudioEvent.decodeCall,
            AudioEvent.playBuffer, AudioEvent.preloadStart (index + 1)])
        | .error _ =>
          ({ s1 with errorMessage := some "Audio unavailable - starting silently.",
                     phase := TimerPhase.COUNTDOWN,
                     remainingSeconds := step.durationSeconds,
                     intervalSet := true },
           [AudioEvent.synthStep index, AudioEvent.decodeCall,
            AudioEvent.preloadStart (index + 1)])
      | .error _ =>
        ({ s1 with errorMessage := some "Audio unavailable - starting silently.",
                   phase := TimerPhase.COUNTDOWN,
                   remainingSeconds := step.durationSeconds,
                   intervalSet := true },
         [AudioEvent.synthStep index, AudioEvent.preloadStart (index + 1)])
  else (s1, [])

/-! Concrete fixtures used by counterexamples and witnesses -/

/-- A three-step list. -/
def stepA : TimerStep := ⟨"a", "Step A", 10⟩

def stepB : TimerStep := ⟨"b", "Step B", 20⟩

def stepC : TimerStep := ⟨"c", "Step C", 30⟩

def timers3 : List TimerStep := [stepA, stepB, stepC]

def timers1 : List TimerStep := [stepA]

/-- Settings with a positive rest buffer. -/
def settingsBuf : ChainSettings := ⟨AlarmType.bell, 4/5, 10⟩

/-- The countdown state of step 0 in a fresh run (opId 1 after the
initial runSequence(0)). -/
def countdownState0 : RunState Unit :=
  { currentIndex := 0, phase := TimerPhase.COUNTDOWN, remainingSeconds := 3,
    isPaused := false, errorMessage := none, opId := 1,
    audioStopSet := false, intervalSet := true, cache := [] }

/-- A paused countdown state with generation 5. -/
def pausedCountdownState : RunState Unit :=
  { currentIndex := 0, phase := TimerPhase.COUNTDOWN, remainingSeconds := 7,
    isPaused := true, errorMessage := none, opId := 5,
    audioStopSet := false, intervalSet := false, cache := [] }

/-- An oracle whose synthesis calls always fail. -/
def oracleSynthFail : FetchOracle Unit :=
  ⟨Except.error "network", Except.error "network", fun _ => Except.error "decode"⟩

/-- An oracle whose synthesis and decode calls always succeed. -/
def oracleOk : FetchOracle Unit :=
  ⟨Except.ok "B64", Except.ok "B64", fun _ => Except.ok ()⟩

/-- An api-call oracle that always throws. -/
def callAlwaysFails : Nat → Except String (Option String) :=
  fun _ => Except.error "network"

/-- An api-call oracle that fails on attempts 0, 1 and 2 and succeeds on
attempt 3. -/
def callFailsThrice : Nat → Except String (Option String) :=
  fun attempt => if attempt < 3 then Except.error "network"
                 else Except.ok (some "AUDIO")

/-- An api-call oracle whose model call succeeds with whitespace-only
text. -/
def callWhitespace : Nat → Except String (Option String) :=
  fun _ => Except.ok (some "   ")

/-! ## Helper lemmas -/

/-! String helper lemmas -/

theorem string_eq_of_data (a b : String) (h : a.data = b.data) : a = b := by
  cases a; cases b; exact congrArg String.mk h

theorem data_append (a b : String) : (a ++ b).data = a.data ++ b.data := rfl

theorem string_length_append (a b : String) : (a ++ b).length = a.length + b.length :=
  List.length_append a.data b.data

theorem string_append_ne_empty_of_left (a b : String) (h : 0 < a.length) :
    a ++ b ≠ "" := by
  intro hcontra
  have hl : (a ++ b).length = 0 := by rw [hcontra]; rfl
  rw [string_length_append] at hl
  omega

/-- The duration phrase of the source agrees with the phrase described by
the spec on every non-negative integer number of seconds. -/
theorem timeString_eq_phraseSpec (n : Nat) : timeString n = phraseSpec n := by
  have hsec : (" second" : String).length = 7 := rfl
  have hmin : (" minute" : String).length = 7 := rfl
  by_cases hm : n / 60 = 0 <;> by_cases hs : n % 60 = 0
  · -- minutes = 0 and seconds = 0, hence n = 0
    have h0 : n = 0 := by omega
    subst h0
    rfl
  · -- minutes = 0, seconds > 0
    have hs' : n % 60 > 0 := by omega
    have hn : ¬ n = 0 := by omega
    have hm' : ¬ (n / 60 > 0) := by omega
    have hne : ("" ++ toString (n % 60) ++ " second" ++
        (if n % 60 ≠ 1 then "s" else "")) ≠ "" := by
      apply string_append_ne_empty_of_left
      rw [string_length_append, string_length_append, hsec]
      omega
    simp only [timeString, phraseSpec, pluralPhrase, hm', hs', hn, if_neg, if_pos,
      if_false, if_true, hm, and_true, and_false, false_and, gt_iff_lt,
      lt_irrefl, ite_false, ite_true, not_false_eq_true]
    rw [if_neg hne]
    apply string_eq_of_data
    by_cases h1 : n % 60 = 1 <;>
      simp [h1, data_append, List.append_assoc]
  · -- minutes > 0, seconds = 0
    have hm'' : n / 60 > 0 := by omega
    have hn : ¬ n = 0 := by omega
    have hs' : ¬ (n % 60 > 0) := by omega
    have hne : ("" ++ toString (n / 60) ++ " minute" ++
        (if n / 60 ≠ 1 then "s" else "")) ≠ "" := by
      apply string_append_ne_empty_of_left
      rw [string_length_append, string_length_append, hmin]
      omega
    simp only [timeString, phraseSpec, pluralPhrase, hm'', hs, hs', hn, hm, gt_iff_lt,
      lt_irrefl, ite_false, ite_true, if_neg, if_pos, and_false, and_true,
      not_false_eq_true]
    rw [if_neg hne]
    apply string_eq_of_data
    by_cases h1 : n / 60 = 1 <;>
      simp [h1, data_append, List.append_assoc]
  · -- minutes > 0, seconds > 0
    have hm'' : n / 60 > 0 := by omega
    have hs' : n % 60 > 0 := by omega
    have hn : ¬ n = 0 := by omega
    have hne : ((("" ++ toString (n / 60) ++ " minute" ++
        (if n / 60 ≠ 1 then "s" else "")) ++ " and ") ++ toString (n % 60) ++ " second" ++
        (if n % 60 ≠ 1 then "s" else "")) ≠ "" := by
      apply string_append_ne_empty_of_left
      rw [string_length_append, string_length_append, string_length_append, hsec]
      omega
    simp only [timeString, phraseSpec, pluralPhrase, hm'', hs', hn, hm, hs, gt_iff_lt,
      lt_irrefl, ite_false, ite_true, if_neg, if_pos, and_self, and_true, true_and,
      not_false_eq_true]
    rw [if_neg hne]
    apply string_eq_of_data
    by_cases h1 : n / 60 = 1 <;> by_cases h2 : n % 60 = 1 <;>
      simp [h1, h2, data_append, List.append_assoc]

/-! Retry lemmas -/

/-- retry makes at most retries + 1 underlying calls. -/
theorem retry_count_le (fn : Nat → Except String α) (retries delay attempt : Nat) :
    (retry fn retries delay attempt).2 ≤ retries + 1 := by
  induction retries generalizing delay attempt with
  | zero =>
    unfold retry
    cases fn attempt <;> simp
  | succ r ih =>
    unfold retry
    cases fn attempt with
    | ok a => simp
    | error e =>
      have h := ih (delay * 2) (attempt + 1)
      simp only
      omega

/-- When every attempt up to the retry budget fails, retry returns an
error after exactly retries + 1 calls. -/
theorem retry_all_fail (fn : Nat → Except String α) (retries delay attempt : Nat)
    (h : ∀ k, k ≤ retries → (fn (attempt + k)).isOk = false) :
    ((retry fn retries delay attempt).1).isOk = false ∧
    (retry fn retries delay attempt).2 = retries + 1 := by
  induction retries generalizing delay attempt with
  | zero =>
    have h0 := h 0 (Nat.le_refl 0)
    rw [Nat.add_zero] at h0
    unfold retry
    cases hf : fn attempt with
    | ok a => rw [hf] at h0; simp [Except.isOk, Except.toBool] at h0
    | error e => exact ⟨rfl, rfl⟩
  | succ r ih =>
    have h0 := h 0 (Nat.zero_le _)
    rw [Nat.add_zero] at h0
    unfold retry
    cases hf : fn attempt with
    | ok a => rw [hf] at h0; simp [Except.isOk, Except.toBool] at h0
    | error e =>
      have hrec := ih (delay * 2) (attempt + 1) (fun k hk => by
        have hx := h (k + 1) (by omega)
        have harg : attempt + (k + 1) = attempt + 1 + k := by omega
        rwa [harg] at hx)
      simp only
      exact ⟨hrec.1, by omega⟩

/-- When the first attempt succeeds, retry returns its value after one
call. -/
theorem retry_first_ok (fn : Nat → Except String α) (retries delay attempt : Nat)
    (a : α) (h : fn attempt = .ok a) :
    retry fn retries delay attempt = (.ok a, 1) := by
  unfold retry
  rw [h]

theorem bytePairs_length (l : List Nat) : (bytePairs l).length = l.length / 2 := by
  induction l using bytePairs.induct with
  | case1 lo hi rest ih => simp [bytePairs, ih]; omega
  | case2 l h => cases l with
    | nil => simp [bytePairs]
    | cons a t => cases t with
      | nil => simp [bytePairs]
      | cons b r => exact absurd rfl (h a b r)

theorem bytePairs_getElem (l : List Nat) (i : Nat) (h : 2 * i + 1 < l.length) :
    (bytePairs l)[i]? = some (l.getD (2 * i) 0, l.getD (2 * i + 1) 0) := by
  induction l using bytePairs.induct generalizing i with
  | case1 lo hi rest ih =>
    cases i with
    | zero => simp [bytePairs, List.getD]
    | succ j =>
      simp only [List.length_cons] at h
      have hj : 2 * j + 1 < rest.length := by omega
      have e1 : 2 * (j + 1) = (2 * j + 1) + 1 := by omega
      rw [e1]
      have hbp : bytePairs (lo :: hi :: rest) = (lo, hi) :: bytePairs rest := rfl
      rw [hbp, List.getElem?_cons_succ, List.getD_cons_succ, List.getD_cons_succ,
        List.getD_cons_succ, List.getD_cons_succ]
      exact ih j hj
  | case2 l hne =>
    cases l with
    | nil => simp at h
    | cons a t => cases t with
      | nil => simp only [List.length_cons, List.length_nil] at h; omega
      | cons b r => exact absurd rfl (hne a b r)

theorem bytePairs_mem (l : List Nat) (p : Nat × Nat) (h : p ∈ bytePairs l) :
    p.1 ∈ l ∧ p.2 ∈ l := by
  induction l using bytePairs.induct with
  | case1 lo hi rest ih =>
    have hbp : bytePairs (lo :: hi :: rest) = (lo, hi) :: bytePairs rest := rfl
    rw [hbp] at h
    rcases List.mem_cons.mp h with h | h
    · subst h; constructor <;> simp
    · have hm := ih h
      exact ⟨List.mem_cons_of_mem _ (List.mem_cons_of_mem _ hm.1),
             List.mem_cons_of_mem _ (List.mem_cons_of_mem _ hm.2)⟩
  | case2 l hne =>
    cases l with
    | nil => simp [bytePairs] at h
    | cons a t => cases t with
      | nil => simp [bytePairs] at h
      | cons b r => exact absurd rfl (hne a b r)

theorem toInt16_bounds (lo hi : Nat) (hlo : lo < 256) (hhi : hi < 256) :
    -32768 ≤ toInt16 lo hi ∧ toInt16 lo hi ≤ 32767 := by
  simp only [toInt16]
  split <;> constructor <;> omega

theorem decode_length (bytes : List Nat) :
    (decodeGeminiAudio bytes).length = bytes.length / 2 := by
  unfold decodeGeminiAudio
  rw [List.length_map, bytePairs_length, List.length_take]
  split <;> omega

theorem decode_take (bytes : List Nat) :
    decodeGeminiAudio bytes =
      decodeGeminiAudio (bytes.take
        (if bytes.length % 2 = 0 then bytes.length else bytes.length - 1)) := by
  have hlen : (bytes.take (if bytes.length % 2 = 0 then bytes.length
      else bytes.length - 1)).length =
      (if bytes.length % 2 = 0 then bytes.length else bytes.length - 1) := by
    rw [List.length_take]; split <;> omega
  have heven : (if bytes.length % 2 = 0 then bytes.length else bytes.length - 1) % 2 = 0 := by
    split <;> omega
  simp only [decodeGeminiAudio]
  rw [hlen, if_pos heven, List.take_take, min_self]

theorem decode_getElem (bytes : List Nat) (i : Nat) (h : 2 * i + 1 < bytes.length) :
    (decodeGeminiAudio bytes)[i]? =
      some (((toInt16 (bytes.getD (2 * i) 0) (bytes.getD (2 * i + 1) 0) : Int) : Rat)
        / 32768) := by
  have hsafe : 2 * i + 1 < (if bytes.length % 2 = 0 then bytes.length
      else bytes.length - 1) := by split <;> omega
  have hkept : 2 * i + 1 < (bytes.take (if bytes.length % 2 = 0 then bytes.length
      else bytes.length - 1)).length := by
    rw [List.length_take]; split <;> omega
  have g1 : (bytes.take (if bytes.length % 2 = 0 then bytes.length
      else bytes.length - 1)).getD (2 * i) 0 = bytes.getD (2 * i) 0 := by
    rw [List.getD_eq_getElem?_getD, List.getD_eq_getElem?_getD,
      List.getElem?_take_of_lt (by omega)]
  have g2 : (bytes.take (if bytes.length % 2 = 0 then bytes.length
      else bytes.length - 1)).getD (2 * i + 1) 0 = bytes.getD (2 * i + 1) 0 := by
    rw [List.getD_eq_getElem?_getD, List.getD_eq_getElem?_getD,
      List.getElem?_take_of_lt (by omega)]
  simp only [decodeGeminiAudio]
  rw [List.getElem?_map, bytePairs_getElem _ _ hkept]
  simp only [Option.map_some']
  rw [g1, g2]

theorem decode_range (bytes : List Nat) (hb : ∀ b ∈ bytes, b < 256) :
    ∀ x ∈ decodeGeminiAudio bytes, -1 ≤ x ∧ x < 1 := by
  intro x hx
  unfold decodeGeminiAudio at hx
  rcases List.mem_map.mp hx with ⟨p, hp, hfx⟩
  have hmem := bytePairs_mem _ _ hp
  have h1 : p.1 < 256 := hb _ (List.take_subset _ _ hmem.1)
  have h2 : p.2 < 256 := hb _ (List.take_subset _ _ hmem.2)
  have hbd := toInt16_bounds p.1 p.2 h1 h2
  subst hfx
  have h32 : (0:ℚ) < 32768 := by norm_num
  constructor
  · rw [le_div_iff₀ h32]
    have hc : (-32768 : ℚ) ≤ (toInt16 p.1 p.2 : ℚ) := by exact_mod_cast hbd.1
    linarith
  · rw [div_lt_one h32]
    have hc : ((toInt16 p.1 p.2 : Int) : ℚ) ≤ 32767 := by exact_mod_cast hbd.2
    linarith

/-! Controller helper lemmas -/

theorem runSequenceEntry_cache (timersLen : Nat) (s : RunState B) (index : Nat) :
    (runSequenceEntry timersLen s index).cache = s.cache := by
  unfold runSequenceEntry
  split <;> rfl

theorem runSequenceStep_fetch_failure (timers : List TimerStep)
    (oracle : FetchOracle B) (s : RunState B) (index : Nat)
    (h : index < timers.length)
    (hm : cacheGet s.cache index = none)
    (hf : oracle.synthStep.isOk = false ∨
          ∃ b64, oracle.synthStep = Except.ok b64 ∧ (oracle.decode b64).isOk = false) :
    (runSequenceStep timers oracle s index).1.phase = TimerPhase.COUNTDOWN ∧
    (runSequenceStep timers oracle s index).1.errorMessage =
      some "Audio unavailable - starting silently." ∧
    (runSequenceStep timers oracle s index).1.remainingSeconds =
      (timers.get ⟨index, h⟩).durationSeconds ∧
    (runSequenceStep timers oracle s index).1.intervalSet = true ∧
    AudioEvent.playBuffer ∉ (runSequenceStep timers oracle s index).2 := by
  have hm1 : cacheGet (runSequenceEntry timers.length s index).cache index = none := by
    rw [runSequenceEntry_cache]; exact hm
  cases hsy : oracle.synthStep with
  | error e =>
    simp only [runSequenceStep, dif_pos h, hm1, hsy]
    simp
  | ok b64 =>
    rcases hf with hf | ⟨b64x, hok, hdec⟩
    · rw [hsy] at hf; simp [Except.isOk, Except.toBool] at hf
    · rw [hsy] at hok
      injection hok with hb
      subst hb
      cases hde : oracle.decode b64 with
      | ok buf => rw [hde] at hdec; simp [Except.isOk, Except.toBool] at hdec
      | error e =>
        simp only [runSequenceStep, dif_pos h, hm1, hsy, hde]
        simp

/-! ## C1 -/

/-- C1 counterexample: resuming from pause in COUNTDOWN restarts the tick
source (isPaused becomes false, the interval is registered again) but the
generation stays at its pre-pause value 5 — not strictly greater, because
togglePause passes the unchanged opIdRef.current to startTimer. -/
theorem togglePause_resume_same_generation_cex :
    pausedCountdownState.isPaused = true ∧
    pausedCountdownState.opId = 5 ∧
    (togglePause pausedCountdownState).isPaused = false ∧
    (togglePause pausedCountdownState).intervalSet = true ∧
    (togglePause pausedCountdownState).opId = 5 ∧
    ¬ pausedCountdownState.opId < (togglePause pausedCountdownState).opId := by
  decide

/-- C1 amended: the generation strictly increases on every call to the
sequencing entry point (hence on skip) and on teardown, but the
pause-then-resume reschedule leaves it unchanged: resume restarts the
tick source under the same, current generation. -/
theorem togglePause_generation_amended (B : Type) :
    (∀ s : RunState B, (togglePause s).opId = s.opId) ∧
    (∀ (timersLen index : Nat) (s : RunState B),
      (runSequenceEntry timersLen s index).opId = s.opId + 1) ∧
    (∀ (timersLen : Nat) (s : RunState B),
      (handleSkip timersLen s).opId = s.opId + 1) ∧
    (∀ s : RunState B, (cleanup s).opId = s.opId + 1) := by
  refine ⟨?_, ?_, ?_, ?_⟩
  · intro s
    unfold togglePause
    split
    · rfl
    · split <;> rfl
  · intro timersLen index s
    unfold runSequenceEntry
    split <;> rfl
  · intro timersLen s
    unfold handleSkip runSequenceEntry
    split <;> rfl
  · intro s
    rfl

/-! ## C2 -/

/-- C2 counterexample: with three steps and a positive buffer, after the
alarm of step 0 the code enters the BUFFER preceding step 1 and already
displays currentIndex 1; a skip issued during that buffer runs
runSequence(2), so the next observed phase is PREPARING_AUDIO of step 2:
step 1 is passed over without any of its phases being entered, refuting
the claim that a skip issued in the rest interval after step 0 makes the
next observed phase belong to step 1. -/
theorem skip_during_buffer_cex :
    (handleStepCompleteAfterAlarm timers3.length settingsBuf
        countdownState0 0).phase = TimerPhase.BUFFER ∧
    (handleStepCompleteAfterAlarm timers3.length settingsBuf
        countdownState0 0).currentIndex = 1 ∧
    (handleSkip timers3.length (handleStepCompleteAfterAlarm timers3.length
        settingsBuf countdownState0 0)).phase = TimerPhase.PREPARING_AUDIO ∧
    (handleSkip timers3.length (handleStepCompleteAfterAlarm timers3.length
        settingsBuf countdownState0 0)).currentIndex = 2 := by
  decide

/-- C2 amended: a skip synchronously stops active audio and ticking and
advances relative to the DISPLAYED current index: the next observed phase
is PREPARING_AUDIO of step currentIndex + 1 when that index is inside the
list, COMPLETION_ANNOUNCEMENT otherwise. During PreparingAudio,
Announcing and Countdown of step i the displayed index is i, so skip
reaches step i + 1; during the Buffer preceding step i + 1 the displayed
index is already i + 1, so skip reaches step i + 2 and the upcoming step
is passed over without its phases being entered. -/
theorem handleSkip_displaced_advance (B : Type) (timersLen : Nat) (s : RunState B) :
    (handleSkip timersLen s).audioStopSet = false ∧
    (handleSkip timersLen s).intervalSet = false ∧
    (handleSkip timersLen s).isPaused = false ∧
    (s.currentIndex + 1 < timersLen →
      (handleSkip timersLen s).phase = TimerPhase.PREPARING_AUDIO ∧
      (handleSkip timersLen s).currentIndex = s.currentIndex + 1) ∧
    (timersLen ≤ s.currentIndex + 1 →
      (handleSkip timersLen s).phase = TimerPhase.COMPLETION_ANNOUNCEMENT) := by
  unfold handleSkip runSequenceEntry
  by_cases h : timersLen ≤ s.currentIndex + 1
  · rw [if_pos h]
    exact ⟨rfl, rfl, rfl, fun hc => absurd hc (by omega), fun _ => rfl⟩
  · rw [if_neg h]
    exact ⟨rfl, rfl, rfl, fun _ => ⟨rfl, rfl⟩, fun hc => absurd hc h⟩

/-- Witness for the amended C2 theorem at concrete states: from the
countdown of step 0 in a three-step run a skip reaches step 1, and from a
displayed index 2 it reaches the completion announcement. -/
theorem handleSkip_displaced_advance_witness :
    ((handleSkip 3 countdownState0).phase = TimerPhase.PREPARING_AUDIO ∧
     (handleSkip 3 countdownState0).currentIndex = 1) ∧
    (handleSkip 3 { countdownState0 with currentIndex := 2 }).phase =
      TimerPhase.COMPLETION_ANNOUNCEMENT :=
  ⟨(handleSkip_displaced_advance Unit 3 countdownState0).2.2.2.1 (by decide),
   (handleSkip_displaced_advance Unit 3
      { countdownState0 with currentIndex := 2 }).2.2.2.2 (by decide)⟩

/-! ## C3 -/

/-- C3 counterexample: the underlying api call fails three times in a row
(attempts 0, 1, 2) yet generateTimerAnnouncement succeeds on its fourth
attempt — the third retry — so no synthesis error is surfaced after only
three consecutive failures. -/
theorem synth_three_failures_cex :
    callFailsThrice 0 = Except.error "network" ∧
    callFailsThrice 1 = Except.error "network" ∧
    callFailsThrice 2 = Except.error "network" ∧
    (generateTimerAnnouncement callFailsThrice).1 = Except.ok "AUDIO" ∧
    (generateTimerAnnouncement callFailsThrice).2 = 4 :=
  ⟨rfl, rfl, rfl, rfl, rfl⟩

/-- C3 amended: a step-announcement synthesis whose underlying api call
fails four times in a row — the initial attempt and all three retries —
surfaces the error after exactly four attempts (so it retries at most
three times beyond the first attempt, on any oracle), and the advancing
operation consuming that failed synthesis still reaches the COUNTDOWN
phase instead of staying stuck in PREPARING_AUDIO. -/
theorem generateTimerAnnouncement_exhaustion
    (call : Nat → Except String (Option String))
    (hfail : ∀ k, k ≤ 3 → (generateAnnouncementApiCall call k).isOk = false) :
    (generateTimerAnnouncement call).1.isOk = false ∧
    (generateTimerAnnouncement call).2 = 4 ∧
    (∀ call2 : Nat → Except String (Option String),
      (generateTimerAnnouncement call2).2 ≤ 4) ∧
    (∀ (B : Type) (comp : Except String String) (dec : String → Except String B)
       (s : RunState B) (timers : List TimerStep) (index : Nat),
       index < timers.length → cacheGet s.cache index = none →
       (runSequenceStep timers ⟨(generateTimerAnnouncement call).1, comp, dec⟩
           s index).1.phase = TimerPhase.COUNTDOWN) := by
  have hall := retry_all_fail (generateAnnouncementApiCall call) 3 1000 0
    (fun k hk => by rw [Nat.zero_add]; exact hfail k hk)
  refine ⟨hall.1, hall.2, ?_, ?_⟩
  · intro call2
    exact retry_count_le (generateAnnouncementApiCall call2) 3 1000 0
  · intro B comp dec s timers index hidx hmiss
    exact (runSequenceStep_fetch_failure timers
      ⟨(generateTimerAnnouncement call).1, comp, dec⟩ s index hidx hmiss
      (Or.inl hall.1)).1

/-- Witness for the amended C3 theorem: with an api call that always
throws, the synthesis rejects after exactly four attempts. -/
theorem generateTimerAnnouncement_exhaustion_witness :
    (generateTimerAnnouncement callAlwaysFails).1.isOk = false ∧
    (generateTimerAnnouncement callAlwaysFails).2 = 4 :=
  ⟨(generateTimerAnnouncement_exhaustion callAlwaysFails (fun _ _ => rfl)).1,
   (generateTimerAnnouncement_exhaustion callAlwaysFails (fun _ _ => rfl)).2.1⟩

/-! ## C4 -/

/-- C4: for a live (uninterrupted) generation, any synthesis or decode
failure while preparing the announcement of a step inside the list is
non-fatal: the transient notice (auto-dismissed after
errorAutoDismissMs = 5000 ms) is set, the phase becomes COUNTDOWN, the
countdown runs for the full durationSeconds of the step, and no
announcement audio is played. -/
theorem runSequence_prepare_failure_nonfatal (B : Type)
    (timers : List TimerStep) (oracle : FetchOracle B) (s : RunState B)
    (index : Nat) (h : index < timers.length)
    (hm : cacheGet s.cache index = none)
    (hf : oracle.synthStep.isOk = false ∨
          ∃ b64, oracle.synthStep = Except.ok b64 ∧
            (oracle.decode b64).isOk = false) :
    (runSequenceStep timers oracle s index).1.phase = TimerPhase.COUNTDOWN ∧
    (runSequenceStep timers oracle s index).1.errorMessage =
      some "Audio unavailable - starting silently." ∧
    errorAutoDismissMs = 5000 ∧
    (runSequenceStep timers oracle s index).1.remainingSeconds =
      (timers.get ⟨index, h⟩).durationSeconds ∧
    (runSequenceStep timers oracle s index).1.intervalSet = true ∧
    AudioEvent.playBuffer ∉ (runSequenceStep timers oracle s index).2 := by
  obtain ⟨a, b, c, d, e⟩ := runSequenceStep_fetch_failure timers oracle s index h hm hf
  exact ⟨a, b, rfl, c, d, e⟩

/-- Witness for C4: a failing synthesis for step 0 of the three-step run
sets the notice and starts the silent ten-second countdown. -/
theorem runSequence_prepare_failure_nonfatal_witness :
    (runSequenceStep timers3 oracleSynthFail countdownState0 0).1.phase =
      TimerPhase.COUNTDOWN ∧
    (runSequenceStep timers3 oracleSynthFail countdownState0 0).1.errorMessage =
      some "Audio unavailable - starting silently." ∧
    (runSequenceStep timers3 oracleSynthFail countdownState0 0).1.remainingSeconds
      = 10 :=
  have hh := runSequence_prepare_failure_nonfatal Unit timers3 oracleSynthFail
    countdownState0 0 (by decide) (by decide) (Or.inl (by decide))
  ⟨hh.1, hh.2.1, Eq.trans hh.2.2.2.1 (by decide)⟩

/-! ## C5 -/

/-- C5 counterexample: the model call succeeds with whitespace-only text;
transcribeAudio resolves with the empty string instead of rejecting. -/
theorem transcribe_whitespace_cex :
    callWhitespace 0 = Except.ok (some "   ") ∧
    jsTrim "   " = "" ∧
    (transcribeAudio callWhitespace).1 = Except.ok "" ∧
    (transcribeAudio callWhitespace).1.isOk = true :=
  ⟨rfl, rfl, rfl, rfl⟩

/-- C5 amended: transcribeAudio rejects only when all three attempts (the
initial call and both retries) throw; when the model call succeeds it
always resolves, returning the trimmed text, and an absent, empty or
whitespace-only transcription is normalized to the empty string "" and
returned as a success rather than an error. -/
theorem transcribeAudio_empty_result_amended :
    (∀ (call : Nat → Except String (Option String)) (t : Option String),
      call 0 = Except.ok t →
      (transcribeAudio call).1 =
        Except.ok (match t.map jsTrim with
                   | none => ""
                   | some s => if s = "" then "" else s)) ∧
    (∀ (call : Nat → Except String (Option String)) (t : String),
      call 0 = Except.ok (some t) → jsTrim t = "" →
      (transcribeAudio call).1 = Except.ok "") ∧
    (∀ call : Nat → Except String (Option String),
      (∀ k, k ≤ 2 → (call k).isOk = false) →
      ((transcribeAudio call).1.isOk = false ∧ (transcribeAudio call).2 = 3)) := by
  refine ⟨?_, ?_, ?_⟩
  · intro call t h0
    unfold transcribeAudio
    rw [retry_first_ok _ 2 500 0 _ (by unfold transcribeApiCall; rw [h0])]
  · intro call t h0 htrim
    unfold transcribeAudio
    rw [retry_first_ok _ 2 500 0 ""
      (by unfold transcribeApiCall; rw [h0]; simp [htrim])]
  · intro call hf
    have hfn : ∀ k, k ≤ 2 → (transcribeApiCall call k).isOk = false := by
      intro k hk
      have hx := hf k hk
      unfold transcribeApiCall
      cases hc : call k with
      | error e => rfl
      | ok t => rw [hc] at hx; simp [Except.isOk, Except.toBool] at hx
    have hall := retry_all_fail (transcribeApiCall call) 2 500 0
      (fun k hk => by rw [Nat.zero_add]; exact hfn k hk)
    exact ⟨hall.1, hall.2⟩

/-- Witness for the amended C5 theorem: whitespace-only text resolves to
the empty string; an always-throwing call rejects. -/
theorem transcribeAudio_empty_result_amended_witness :
    (transcribeAudio callWhitespace).1 = Except.ok "" ∧
    (transcribeAudio callAlwaysFails).1.isOk = false :=
  ⟨transcribeAudio_empty_result_amended.2.1 callWhitespace "   " rfl rfl,
   (transcribeAudio_empty_result_amended.2.2 callAlwaysFails (fun _ _ => rfl)).1⟩

/-! ## C6 -/

/-- C6: the duration-to-phrase formatting embedded in the announcement
prompt maps every non-negative integer number of seconds to the
pluralization-correct English phrase described by the spec; in particular
0, 45, 60 and 90 seconds map as listed. -/
theorem timeString_pluralization_correct :
    (∀ n : Nat, timeString n = phraseSpec n) ∧
    timeString 0 = "0 seconds" ∧
    timeString 45 = "45 seconds" ∧
    timeString 60 = "1 minute" ∧
    timeString 90 = "1 minute and 30 seconds" :=
  ⟨timeString_eq_phraseSpec, by decide, by decide, by decide, by decide⟩

/-! ## C7 -/

theorem cacheGet_cacheSet_same (cache : List (Nat × B)) (k : Nat) (v : B) :
    cacheGet (cacheSet cache k v) k = some v := by
  simp [cacheGet, cacheSet]

/-- C7 counterexample: the first ensure(0) resolves (preload swallows its
synthesis failure) without storing anything, and the second ensure(0),
issued after the first has resolved, performs the underlying synthesis
fetch again — two fetches in total, refuting "at most once in total". -/
theorem preload_refetch_after_failure_cex :
    (preloadNextAudio timers1 oracleSynthFail [] 0).1 = [] ∧
    (preloadNextAudio timers1 oracleSynthFail [] 0).2 =
      [AudioEvent.synthStep 0] ∧
    (preloadNextAudio timers1 oracleSynthFail
      (preloadNextAudio timers1 oracleSynthFail [] 0).1 0).2 =
      [AudioEvent.synthStep 0] := by
  decide

/-- C7 amended: an ensure(i) that resolves successfully stores the
decoded buffer, so a following get(i) returns it; and when the FIRST
ensure(i) resolves successfully, a second ensure(i) is a pure no-op (no
synthesis, no decode), so the two calls perform the underlying fetch at
most once in total. After a swallowed failure the buffer is not stored
and a later ensure fetches again. -/
theorem preloadNextAudio_ensure_get_amended (B : Type) :
    (∀ (timers : List TimerStep) (oracle : FetchOracle B)
       (cache : List (Nat × B)) (i : Nat) (b64 : String) (buf : B),
      cacheGet cache i = none → i < timers.length →
      oracle.synthStep = Except.ok b64 → oracle.decode b64 = Except.ok buf →
      (cacheGet (preloadNextAudio timers oracle cache i).1 i = some buf ∧
       (preloadNextAudio timers oracle cache i).2 =
         [AudioEvent.synthStep i, AudioEvent.decodeCall])) ∧
    (∀ (timers : List TimerStep) (oracle : FetchOracle B)
       (cache : List (Nat × B)) (i : Nat) (b64 : String) (buf : B),
      cacheGet cache i = none → i = timers.length →
      oracle.synthCompletion = Except.ok b64 → oracle.decode b64 = Except.ok buf →
      (cacheGet (preloadNextAudio timers oracle cache i).1 i = some buf ∧
       (preloadNextAudio timers oracle cache i).2 =
         [AudioEvent.synthCompletion, AudioEvent.decodeCall])) ∧
    (∀ (timers : List TimerStep) (oracle2 : FetchOracle B)
       (cache : List (Nat × B)) (i : Nat),
      (cacheGet cache i).isSome →
      preloadNextAudio timers oracle2 cache i = (cache, [])) := by
  refine ⟨?_, ?_, ?_⟩
  · intro timers oracle cache i b64 buf hmiss hlt hsy hde
    have hne : ¬ (i = timers.length) := by omega
    simp [preloadNextAudio, hmiss, hne, hlt, hsy, hde, cacheGet_cacheSet_same]
  · intro timers oracle cache i b64 buf hmiss heq hsy hde
    subst heq
    simp [preloadNextAudio, hmiss, hsy, hde, cacheGet_cacheSet_same]
  · intro timers oracle2 cache i hhit
    unfold preloadNextAudio
    rw [if_pos hhit]

/-- Witness for the amended C7 theorem: a successful ensure(0) stores the
buffer with exactly one fetch, and the second ensure(0) is a no-op. -/
theorem preloadNextAudio_ensure_get_amended_witness :
    (cacheGet (preloadNextAudio timers1 oracleOk [] 0).1 0 = some () ∧
     (preloadNextAudio timers1 oracleOk [] 0).2 =
       [AudioEvent.synthStep 0, AudioEvent.decodeCall]) ∧
    preloadNextAudio timers1 oracleOk
      (preloadNextAudio timers1 oracleOk [] 0).1 0 =
      ((preloadNextAudio timers1 oracleOk [] 0).1, []) :=
  ⟨(preloadNextAudio_ensure_get_amended Unit).1 timers1 oracleOk [] 0 "B64" ()
     rfl (by decide) rfl rfl,
   (preloadNextAudio_ensure_get_amended Unit).2.2 timers1 oracleOk
     (preloadNextAudio timers1 oracleOk [] 0).1 0 (by decide)⟩

/-! ## C8 -/

/-- C8: on a byte sequence of length L (each byte below 256), the decode
operation uses exactly the first L bytes when L is even and the first
L - 1 when L is odd, produces floor(L / 2) samples, interprets
consecutive byte pairs as little-endian signed 16 bit values divided by
32768, and every output sample lies in [-1, 1). -/
theorem decodeGeminiAudio_pcm_correct (bytes : List Nat)
    (hb : ∀ b ∈ bytes, b < 256) :
    (decodeGeminiAudio bytes).length = bytes.length / 2 ∧
    decodeGeminiAudio bytes =
      decodeGeminiAudio (bytes.take (if bytes.length % 2 = 0 then bytes.length
        else bytes.length - 1)) ∧
    (∀ i, 2 * i + 1 < bytes.length →
      (decodeGeminiAudio bytes)[i]? =
        some (((toInt16 (bytes.getD (2 * i) 0) (bytes.getD (2 * i + 1) 0) : Int) :
          Rat) / 32768)) ∧
    (∀ x ∈ decodeGeminiAudio bytes, -1 ≤ x ∧ x < 1) :=
  ⟨decode_length bytes, decode_take bytes,
   fun i h => decode_getElem bytes i h, decode_range bytes hb⟩

/-- Witness for C8 on the bytes [0, 128, 255, 255, 1]: the trailing odd
byte is dropped, two samples result, the first is -32768/32768 = -1, and
all samples are inside [-1, 1). -/
theorem decodeGeminiAudio_pcm_correct_witness :
    (∀ b ∈ [0, 128, 255, 255, 1], b < 256) ∧
    (decodeGeminiAudio [0, 128, 255, 255, 1]).length = 2 ∧
    (decodeGeminiAudio [0, 128, 255, 255, 1])[0]? = some ((-1 : Rat)) ∧
    (∀ x ∈ decodeGeminiAudio [0, 128, 255, 255, 1], -1 ≤ x ∧ x < 1) :=
  ⟨by decide,
   (decodeGeminiAudio_pcm_correct [0, 128, 255, 255, 1] (by decide)).1,
   by
     have h3 := (decodeGeminiAudio_pcm_correct [0, 128, 255, 255, 1]
       (by decide)).2.2.1 0 (by decide)
     rw [h3]
     norm_num [toInt16, List.getD],
   (decodeGeminiAudio_pcm_correct [0, 128, 255, 255, 1] (by decide)).2.2.2⟩

/-! ## C9 -/

/-- C9: with an empty step list the start operation leaves the
application status unchanged — in particular SETUP stays SETUP and never
becomes RUNNING — and with a non-empty list it transitions the status to
RUNNING. -/
theorem handleStart_empty_list_guard :
    (∀ (timers : List TimerStep) (status : AppStatus),
      timers.length = 0 → handleStart timers status = status) ∧
    handleStart [] AppStatus.SETUP = AppStatus.SETUP ∧
    handleStart [] AppStatus.SETUP ≠ AppStatus.RUNNING ∧
    (∀ (timers : List TimerStep) (status : AppStatus),
      0 < timers.length → handleStart timers status = AppStatus.RUNNING) := by
  refine ⟨?_, rfl, by decide, ?_⟩
  · intro timers status h
    unfold handleStart
    rw [if_neg (by omega)]
  · intro timers status h
    unfold handleStart
    rw [if_pos h]

/-- Witness for C9: the empty list keeps SETUP; the three-step list
starts RUNNING. -/
theorem handleStart_empty_list_guard_witness :
    handleStart [] AppStatus.SETUP = AppStatus.SETUP ∧
    handleStart timers3 AppStatus.SETUP = AppStatus.RUNNING :=
  ⟨handleStart_empty_list_guard.1 [] AppStatus.SETUP rfl,
   handleStart_empty_list_guard.2.2.2 timers3 AppStatus.SETUP (by decide)⟩

/-! ## C10 -/

/-- C10: preloadNextAudio with a target index strictly beyond the
step-list length returns without invoking the Speech Service or the
decode operation and leaves the cache unchanged; the same frame condition
holds for any target index already present in the cache. -/
theorem preloadNextAudio_frame (B : Type) (timers : List TimerStep)
    (oracle : FetchOracle B) (cache : List (Nat × B)) (targetIndex : Nat) :
    (timers.length < targetIndex →
      preloadNextAudio timers oracle cache targetIndex = (cache, [])) ∧
    ((cacheGet cache targetIndex).isSome →
      preloadNextAudio timers oracle cache targetIndex = (cache, [])) := by
  constructor
  · intro h
    unfold preloadNextAudio
    by_cases hc : (cacheGet cache targetIndex).isSome
    · rw [if_pos hc]
    · rw [if_neg hc, if_neg (by omega), if_neg (by omega)]
  · intro h
    unfold preloadNextAudio
    rw [if_pos h]

/-- Witness for C10: past-the-end target 5 on a one-step list is a no-op;
a cached target 0 is a no-op. -/
theorem preloadNextAudio_frame_witness :
    preloadNextAudio timers1 oracleOk [] 5 = ([], []) ∧
    preloadNextAudio timers1 oracleOk [(0, ())] 0 = ([(0, ())], []) :=
  ⟨(preloadNextAudio_frame Unit timers1 oracleOk [] 5).1 (by decide),
   (preloadNextAudio_frame Unit timers1 oracleOk [(0, ())] 0).2 (by decide)⟩

end GoogleTimer
